import Mathlib

/-!
Verification development for the lightning-hackathon-server Flask backend
(`app.py`).  The handlers `generate_article`, `generate_questions` and
`evaluate_answer` are shallowly embedded as pure Lean functions over a model
of JSON values and of the upstream chat-completion API's possible outcomes.
Machinery used by the handlers (`json.loads`, the `re` searches, Python
truthiness / `len` / slicing semantics) is modelled explicitly so that every
extraction path of the source is represented.
-/

namespace App

/-- JSON values as produced by `json.loads`.  Numbers are modelled as
integers; the inputs this development evaluates contain no floats. -/
inductive Json where
  | null
  | bool (b : Bool)
  | num (n : Int)
  | str (s : String)
  | arr (xs : List Json)
  | obj (fields : List (String × Json))

/-- Whether a decoded JSON value is an object (a Python dict). -/
def Json.isObj : Json → Bool
  | .obj _ => true
  | _ => false

/-- Python truthiness (`bool(x)`) of a decoded JSON value. -/
def pyTruthy : Json → Bool
  | .null => false
  | .bool b => b
  | .num n => n != 0
  | .str s => s ≠ ""
  | .arr xs => !xs.isEmpty
  | .obj fs => !fs.isEmpty

/-- Python `len(x)`: defined for strings, lists and dicts (distinct keys);
`none` models a `TypeError` for unsized values. -/
def pyLen : Json → Option Nat
  | .str s => some s.length
  | .arr xs => some xs.length
  | .obj fs => some (fs.map Prod.fst).dedup.length
  | _ => none

/-- `dict.get(k)` on a decoded JSON value: for objects, the value of the last
binding of `k` (later duplicate keys override earlier ones, as in `json.loads`);
`none` for a missing key.  Non-objects never reach `.get` in the modelled
paths; they yield `none` here. -/
def pyGet (j : Json) (k : String) : Option Json :=
  match j with
  | .obj fs => ((fs.reverse.find? (fun p => p.1 = k)).map Prod.snd)
  | _ => none

/-- `dict.get(k, default)`. -/
def pyGetD (j : Json) (k : String) (dflt : Json) : Json :=
  (pyGet j k).getD dflt

/-- `dict.get(k, None)` followed by an `is None` test: both a missing key and
a JSON `null` value give Python `None`. -/
def pyGetNonNull (j : Json) (k : String) : Option Json :=
  match pyGet j k with
  | some .null => none
  | r => r

/-- `k in x` for Python `in`: key test on dicts, membership on lists (a string
element equal to `k`), substring test on strings; `none` models a `TypeError`. -/
def pyContainsKey (j : Json) (k : String) : Option Bool :=
  match j with
  | .obj fs => some (fs.any (fun p => p.1 = k))
  | .arr xs => some (xs.any (fun x => match x with | .str s => s = k | _ => false))
  | .str s => some (((s.data).tails.any (fun t => k.data.isPrefixOf t)))
  | _ => none

/-- `x[:n]` on strings and lists; `none` models a `TypeError`. -/
def pySliceTo (j : Json) (n : Nat) : Option Json :=
  match j with
  | .str s => some (.str ⟨s.data.take n⟩)
  | .arr xs => some (.arr (xs.take n))
  | _ => none

/-- `x[n:]` on strings and lists; `none` models a `TypeError`. -/
def pySliceFrom (j : Json) (n : Nat) : Option Json :=
  match j with
  | .str s => some (.str ⟨s.data.drop n⟩)
  | .arr xs => some (.arr (xs.drop n))
  | _ => none

/-- Whitespace for Python `str.strip()` and the regex class `\s`. -/
def isPyWs (c : Char) : Bool :=
  c = ' ' || c = '\t' || c = '\n' || c = '\r' || c = '\x0b' || c = '\x0c'

/-- Python `str.strip()`. -/
def pyStrip (s : String) : String :=
  ⟨((s.data.dropWhile isPyWs).reverse.dropWhile isPyWs).reverse⟩

/-- Python `str.lower()` (ASCII). -/
def pyLower (s : String) : String :=
  ⟨s.data.map Char.toLower⟩

/-- Whether `pat` occurs as a substring of `s` (`pat in s` for strings). -/
def containsSub (pat s : String) : Bool :=
  s.data.tails.any (fun t => pat.data.isPrefixOf t)

/-! ### A model of `json.loads`

Recursive-descent parser over the character list, with a fuel argument for
termination.  It follows the JSON grammar accepted by Python's `json.loads`:
the four JSON whitespace characters, strings with escapes, exact `true` /
`false` / `null` literals, and integer numerals without leading zeros.
Fractional and exponent forms (floats) are not represented in `Json` and are
rejected by the model. -/

/-- JSON whitespace (what `json.loads` skips between tokens). -/
def isJsonWs (c : Char) : Bool :=
  c = ' ' || c = '\t' || c = '\n' || c = '\r'

def skipWs (cs : List Char) : List Char :=
  cs.dropWhile isJsonWs

def hexVal (c : Char) : Option Nat :=
  if '0' ≤ c ∧ c ≤ '9' then some (c.toNat - '0'.toNat)
  else if 'a' ≤ c ∧ c ≤ 'f' then some (c.toNat - 'a'.toNat + 10)
  else if 'A' ≤ c ∧ c ≤ 'F' then some (c.toNat - 'A'.toNat + 10)
  else none

/-- Body of a JSON string literal, after the opening quote has been consumed.
Returns the decoded string and the rest of the input. -/
def stringBody : Nat → List Char → List Char → Option (String × List Char)
  | 0, _, _ => none
  | _ + 1, _, [] => none
  | fuel + 1, acc, c :: rest =>
    if c = '"' then some (⟨acc.reverse⟩, rest)
    else if c = '\\' then
      match rest with
      | [] => none
      | e :: rest2 =>
        if e = '"' then stringBody fuel ('"' :: acc) rest2
        else if e = '\\' then stringBody fuel ('\\' :: acc) rest2
        else if e = '/' then stringBody fuel ('/' :: acc) rest2
        else if e = 'n' then stringBody fuel ('\n' :: acc) rest2
        else if e = 't' then stringBody fuel ('\t' :: acc) rest2
        else if e = 'r' then stringBody fuel ('\r' :: acc) rest2
        else if e = 'b' then stringBody fuel (Char.ofNat 8 :: acc) rest2
        else if e = 'f' then stringBody fuel (Char.ofNat 12 :: acc) rest2
        else if e = 'u' then
          match rest2 with
          | h1 :: h2 :: h3 :: h4 :: rest3 =>
            match hexVal h1, hexVal h2, hexVal h3, hexVal h4 with
            | some a, some b, some c3, some d =>
              stringBody fuel (Char.ofNat (((a * 16 + b) * 16 + c3) * 16 + d) :: acc) rest3
            | _, _, _, _ => none
          | _ => none
        else none
    else if c.toNat < 32 then none
    else stringBody fuel (c :: acc) rest

def digitsToNat (ds : List Char) : Nat :=
  ds.foldl (fun a c => a * 10 + (c.toNat - '0'.toNat)) 0

/-- Unsigned integer numeral per the JSON grammar (no leading zeros); a
following `.`, `e` or `E` would denote a float, which the model rejects. -/
def uintNumeral (cs : List Char) : Option (Nat × List Char) :=
  match cs with
  | [] => none
  | c :: rest =>
    if ¬ c.isDigit then none
    else if c = '0' then
      match rest with
      | d :: _ => if d.isDigit ∨ d = '.' ∨ d = 'e' ∨ d = 'E' then none else some (0, rest)
      | [] => some (0, [])
    else
      let ds := cs.takeWhile Char.isDigit
      let rest' := cs.dropWhile Char.isDigit
      match rest' with
      | d :: _ => if d = '.' ∨ d = 'e' ∨ d = 'E' then none else some (digitsToNat ds, rest')
      | [] => some (digitsToNat ds, [])

def numToken (cs : List Char) : Option (Json × List Char) :=
  match cs with
  | '-' :: rest => (uintNumeral rest).map (fun p => (.num (-(p.1 : Int)), p.2))
  | _ => (uintNumeral cs).map (fun p => (.num (p.1 : Int), p.2))

mutual

/-- One JSON value (with leading whitespace skipped), returning the rest. -/
def jsonValue : Nat → List Char → Option (Json × List Char)
  | 0, _ => none
  | fuel + 1, cs =>
    match skipWs cs with
    | [] => none
    | c :: rest =>
      if c = '"' then (stringBody (fuel + 1) [] rest).map (fun p => (.str p.1, p.2))
      else if c = '{' then
        match skipWs rest with
        | '}' :: r => some (.obj [], r)
        | r => jsonMembers fuel r []
      else if c = '[' then
        match skipWs rest with
        | ']' :: r => some (.arr [], r)
        | r => jsonElems fuel r []
      else if c = 't' then
        match rest with
        | 'r' :: 'u' :: 'e' :: r => some (.bool true, r)
        | _ => none
      else if c = 'f' then
        match rest with
        | 'a' :: 'l' :: 's' :: 'e' :: r => some (.bool false, r)
        | _ => none
      else if c = 'n' then
        match rest with
        | 'u' :: 'l' :: 'l' :: r => some (.null, r)
        | _ => none
      else numToken (c :: rest)

/-- Members of a JSON object, after `{` (and not at an immediate `}`). -/
def jsonMembers : Nat → List Char → List (String × Json) → Option (Json × List Char)
  | 0, _, _ => none
  | fuel + 1, cs, acc =>
    match skipWs cs with
    | '"' :: rest =>
      match stringBody (fuel + 1) [] rest with
      | none => none
      | some (k, r1) =>
        match skipWs r1 with
        | ':' :: r2 =>
          match jsonValue fuel r2 with
          | none => none
          | some (v, r3) =>
            match skipWs r3 with
            | ',' :: r4 => jsonMembers fuel r4 (acc ++ [(k, v)])
            | '}' :: r4 => some (.obj (acc ++ [(k, v)]), r4)
            | _ => none
        | _ => none
    | _ => none

/-- Elements of a JSON array, after `[` (and not at an immediate `]`). -/
def jsonElems : Nat → List Char → List Json → Option (Json × List Char)
  | 0, _, _ => none
  | fuel + 1, cs, acc =>
    match jsonValue fuel cs with
    | none => none
    | some (v, r) =>
      match skipWs r with
      | ',' :: r2 => jsonElems fuel r2 (acc ++ [v])
      | ']' :: r2 => some (.arr (acc ++ [v]), r2)
      | _ => none

end

/-- `json.loads`: the whole input must be one JSON document (trailing
whitespace allowed); `none` models `json.JSONDecodeError`. -/
def jsonLoads (s : String) : Option Json :=
  match jsonValue (s.length + 2) s.data with
  | some (v, rest) => if (skipWs rest).isEmpty then some v else none
  | none => none

/-! ### The two `re` patterns of `app.py` -/

def findFirstIdx (c : Char) (cs : List Char) : Option Nat :=
  cs.findIdx? (fun x => x = c)

def findLastIdx (c : Char) (cs : List Char) : Option Nat :=
  (cs.reverse.findIdx? (fun x => x = c)).map (fun i => cs.length - 1 - i)

/-- `re.search(r'\x7b.*\x7d', text, re.DOTALL)`: the greedy leftmost match
runs from the first opening brace to the last closing brace of the whole
text, provided the latter comes after the former. -/
def braceMatch (s : String) : Option String :=
  match findFirstIdx '{' s.data, findLastIdx '}' s.data with
  | some i, some j => if i < j then some ⟨(s.data.drop i).take (j - i + 1)⟩ else none
  | _, _ => none

def scoreLit : List Char := ['"', 's', 'c', 'o', 'r', 'e', '"']

/-- One attempt of `"score"\s*:\s*(\d+)` anchored at the head of `cs`. -/
def scoreAt (cs : List Char) : Option Nat :=
  if scoreLit.isPrefixOf cs then
    match (cs.drop 7).dropWhile isPyWs with
    | ':' :: r2 =>
      let ds := (r2.dropWhile isPyWs).takeWhile Char.isDigit
      if ds.isEmpty then none else some (digitsToNat ds)
    | _ => none
  else none

/-- `re.search(r'"score"\s*:\s*(\d+)', text)`: leftmost match, greedy digit
group, returned as the captured integer. -/
def regexScoreSearch : List Char → Option Nat
  | [] => none
  | c :: rest =>
    match scoreAt (c :: rest) with
    | some n => some n
    | none => regexScoreSearch rest

/-! ### `allowed_file` -/

def ALLOWED_EXTENSIONS : List String := ["png", "jpg", "jpeg", "gif", "pdf"]

/-- The suffix of `cs` after its last `'.'`, i.e. `filename.rsplit('.', 1)[1]`;
`none` when there is no dot. -/
def afterLastDot : List Char → Option (List Char)
  | [] => none
  | c :: cs =>
    match afterLastDot cs with
    | some r => some r
    | none => if c = '.' then some cs else none

/-- `allowed_file`: `'.' in filename and filename.rsplit('.', 1)[1].lower()
in ALLOWED_EXTENSIONS`. -/
def allowed_file (filename : String) : Bool :=
  match afterLastDot filename.data with
  | none => false
  | some ext => ALLOWED_EXTENSIONS.contains (pyLower ⟨ext⟩)

/-! ### Upstream call model

One synchronous `requests.post` either raises a transport error or returns a
response with a status code and a body; the body is modelled as the parsed
JSON document (`none` when `.json()` would raise). -/

inductive Upstream where
  | netError
  | resp (status : Nat) (body : Option Json)

/-- How extraction of `response.json()['choices'][0]['message']['content']`
can fail, classed by the Python exception raised: `notJson` is
`json.JSONDecodeError` from `.json()`, `missingKey` is `KeyError`/`IndexError`
from the subscripts, `wrongType` is `TypeError`/`AttributeError` (subscripting
a non-container or `.strip()` on a non-string).  The class matters because the
handlers catch different exception tuples. -/
inductive EnvErr where
  | notJson
  | missingKey
  | wrongType
deriving DecidableEq

/-- `response.json()['choices'][0]['message']['content'].strip()`. -/
def envContent (body : Option Json) : Except EnvErr String :=
  match body with
  | none => .error .notJson
  | some j =>
    match j with
    | .obj _ =>
      match pyGet j "choices" with
      | none => .error .missingKey
      | some c =>
        match c with
        | .arr xs =>
          match xs.head? with
          | none => .error .missingKey
          | some e0 =>
            match e0 with
            | .obj _ =>
              match pyGet e0 "message" with
              | none => .error .missingKey
              | some m =>
                match m with
                | .obj _ =>
                  match pyGet m "content" with
                  | none => .error .missingKey
                  | some (.str s) => .ok (pyStrip s)
                  | some _ => .error .wrongType
                | _ => .error .wrongType
            | _ => .error .wrongType
        | .obj _ => .error .missingKey
        | .str s => if s = "" then .error .missingKey else .error .wrongType
        | _ => .error .wrongType
    | _ => .error .wrongType

/-- Outcome classification of one upstream call, as in the spec's
`call_model` contract: transport failure, non-2xx status, or a reply whose
envelope does not yield `choices[0].message.content`. -/
inductive UpErr where
  | unavailable
  | rejected (status : Nat)
  | malformed (e : EnvErr)

/-- One `requests.post` to the chat API followed by the shared
status check and envelope extraction. -/
def callModel (up : Upstream) : Except UpErr String :=
  match up with
  | .netError => .error .unavailable
  | .resp st body =>
    if st ≠ 200 then .error (.rejected st)
    else
      match envContent body with
      | .error e => .error (.malformed e)
      | .ok c => .ok c

/-- True when the modelled upstream call does not produce usable content. -/
def upFails (up : Upstream) : Bool :=
  match callModel up with
  | .ok _ => false
  | .error _ => true

/-! ### Question extraction (`generate_questions`, lines 399-421) -/

/-- How the question-extraction pipeline fails: no brace-delimited substring,
`json.loads` failure, fewer than 5 items in a list after normalization, or a
`TypeError`/`AttributeError` from Python dynamic typing (caught by the
handler's generic `except`). -/
inductive QErr where
  | noJson
  | decodeErr
  | insufficient
  | typeErr
deriving DecidableEq

/-- Lines 414-417: `if not descriptive_questions and len(short_questions) >=
10:` redistribute `short_questions[:5]` / `short_questions[5:]`.  `none`
models a `TypeError` from `len` or slicing. -/
def normalizeQuestions (s d : Json) : Option (Json × Json) :=
  if pyTruthy d then some (s, d)
  else
    match pyLen s with
    | none => none
    | some n =>
      if 10 ≤ n then
        match pySliceTo s 5, pySliceFrom s 5 with
        | some s', some d' => some (s', d')
        | _, _ => none
      else some (s, d)

/-- Lines 412-421: fetch both lists with `[]` defaults, normalize, then fail
with `insufficient` when `len(short_questions) < 5 or
len(descriptive_questions) < 5` (evaluated left to right, as in Python). -/
def finishQuestions (s d : Json) : Except QErr (Json × Json) :=
  match normalizeQuestions s d with
  | none => .error .typeErr
  | some (s', d') =>
    match pyLen s' with
    | none => .error .typeErr
    | some a =>
      if a < 5 then .error .insufficient
      else
        match pyLen d' with
        | none => .error .typeErr
        | some b => if b < 5 then .error .insufficient else .ok (s', d')

/-- Lines 399-421: the whole extraction run on the model's reply text
(`questions_text`): brace-regex search, `json.loads`, `.get` with `[]`
defaults, normalization and the length validation. -/
def extractQuestions (questions_text : String) : Except QErr (Json × Json) :=
  match braceMatch questions_text with
  | none => .error .noJson
  | some sub =>
    match jsonLoads sub with
    | none => .error .decodeErr
    | some qj =>
      match qj with
      | .obj _ =>
        finishQuestions (pyGetD qj "short_questions" (.arr []))
          (pyGetD qj "descriptive_questions" (.arr []))
      | _ => .error .typeErr

/-! ### Evaluation extraction (`evaluate_using_sambanova`, lines 660-685) -/

/-- Failure modes of the evaluation extraction; every one is re-raised as a
bare `Exception` to the caller. -/
inductive EErr where
  | noJson
  | decodeErr
  | missingScore
  | attrErr
deriving DecidableEq

/-- Lines 660-685: brace-regex search on `evaluation_text`, `json.loads`,
`evaluation = .get('evaluation', '')`, `score = .get('score', None)`, and if
the score is Python `None` the regex fallback `"score"\s*:\s*(\d+)` over the
whole `evaluation_text` before giving up. -/
def extractEvaluation (evaluation_text : String) : Except EErr (Json × Json) :=
  match braceMatch evaluation_text with
  | none => .error .noJson
  | some sub =>
    match jsonLoads sub with
    | none => .error .decodeErr
    | some ej =>
      match ej with
      | .obj _ =>
        let evaluation := pyGetD ej "evaluation" (.str "")
        match pyGetNonNull ej "score" with
        | some v => .ok (evaluation, v)
        | none =>
          match regexScoreSearch evaluation_text.data with
          | some n => .ok (evaluation, .num (n : Int))
          | none => .error .missingScore
      | _ => .error .attrErr

/-! ### Handler: `generate_article` (lines 118-186) -/

inductive GABody where
  | err
  | ok (article : String)

structure GAResult where
  status : Nat
  body : GABody
  calls : Nat

/-- The upstream phase of `generate_article`: transport error and non-200
status give 502; envelope errors give 502 when raised as `KeyError` /
`IndexError` / `json.JSONDecodeError` (the caught tuple, line 176) and 500
when raised as `TypeError`/`AttributeError` (only the generic handler
catches those). -/
def articleFlow (up : Upstream) : GAResult :=
  match callModel up with
  | .error .unavailable => ⟨502, .err, 1⟩
  | .error (.rejected _) => ⟨502, .err, 1⟩
  | .error (.malformed .notJson) => ⟨502, .err, 1⟩
  | .error (.malformed .missingKey) => ⟨502, .err, 1⟩
  | .error (.malformed .wrongType) => ⟨500, .err, 1⟩
  | .ok c => ⟨200, .ok c, 1⟩

/-- `generate_article`: request body validation (lines 121-129) then the
upstream call.  `data` is the parsed request JSON (`none` when absent). -/
def generate_article (data : Option Json) (up : Upstream) : GAResult :=
  match data with
  | none => ⟨400, .err, 0⟩
  | some d =>
    if ¬ pyTruthy d then ⟨400, .err, 0⟩
    else
      match pyContainsKey d "topic" with
      | none => ⟨500, .err, 0⟩
      | some false => ⟨400, .err, 0⟩
      | some true =>
        match d with
        | .obj _ =>
          match pyGet d "topic" with
          | some (.str t) =>
            if pyStrip t = "" then ⟨400, .err, 0⟩ else articleFlow up
          | some _ => ⟨500, .err, 0⟩
          | none => ⟨500, .err, 0⟩
        | _ => ⟨500, .err, 0⟩

/-! ### Handler: `generate_questions` (lines 241-438) -/

inductive CT where
  | multipart
  | json
  | other

/-- The parts of the incoming request the handler inspects: the content type,
the `syllabus_image` file part (its filename; `none` when no such part), the
`syllabus_text` form field, and the parsed JSON body. -/
structure GQReq where
  ct : CT
  img : Option String
  txt : Option String
  jsonBody : Option Json

inductive GQBody where
  | err
  | ok (short descriptive : Json)

structure GQResult where
  status : Nat
  body : GQBody
  calls : Nat
  imageFileLeft : Bool

/-- Truthiness of `request.files.get(...)`: a `FileStorage` is truthy when
its filename is non-empty. -/
def truthyFile (f : Option String) : Bool :=
  match f with
  | none => false
  | some s => s ≠ ""

/-- Truthiness of `request.form.get(...)`. -/
def truthyStr (t : Option String) : Bool :=
  match t with
  | none => false
  | some s => s ≠ ""

/-- Lines 412-429 as reached from the questions call: map extraction results
to a response.  `noJson`, `decodeErr` and `insufficient` produce 502 (lines
410, 406, 421); `typeErr` reaches the generic `except Exception` (line 429)
and produces 500. -/
def handleExtract (content : String) (n : Nat) : GQResult :=
  match extractQuestions content with
  | .ok (s, d) => ⟨200, .ok s d, n, false⟩
  | .error .noJson => ⟨502, .err, n, false⟩
  | .error .decodeErr => ⟨502, .err, n, false⟩
  | .error .insufficient => ⟨502, .err, n, false⟩
  | .error .typeErr => ⟨500, .err, n, false⟩

/-- Lines 378-434, the question-generation upstream call: transport error
gives 502 (line 388); a non-200 status is propagated verbatim as the
response status (line 392); a body that is not JSON gives 502 (the
`json.JSONDecodeError` arm, line 426) while a structurally missing or
ill-typed envelope reaches the generic `except` and gives 500 (line 429). -/
def questionsFlow (up : Upstream) (n : Nat) : GQResult :=
  match callModel up with
  | .error .unavailable => ⟨502, .err, n + 1, false⟩
  | .error (.rejected st) => ⟨st, .err, n + 1, false⟩
  | .error (.malformed .notJson) => ⟨502, .err, n + 1, false⟩
  | .error (.malformed .missingKey) => ⟨500, .err, n + 1, false⟩
  | .error (.malformed .wrongType) => ⟨500, .err, n + 1, false⟩
  | .ok content => handleExtract content (n + 1)

/-- Lines 281-341, the syllabus-image branch: validate the filename, save the
file, call the vision model; the file is removed (line 339) only on the
success path — transport errors (502, line 326), non-200 statuses
(propagated verbatim, line 330) and malformed envelopes (502 for the caught
tuple of line 335, 500 for `TypeError`/`AttributeError`) all return with the
file still on disk. -/
def imageFlow (filename : String) (upI upQ : Upstream) : GQResult :=
  if allowed_file filename then
    match callModel upI with
    | .error .unavailable => ⟨502, .err, 1, true⟩
    | .error (.rejected st) => ⟨st, .err, 1, true⟩
    | .error (.malformed .notJson) => ⟨502, .err, 1, true⟩
    | .error (.malformed .missingKey) => ⟨502, .err, 1, true⟩
    | .error (.malformed .wrongType) => ⟨500, .err, 1, true⟩
    | .ok _syllabus => questionsFlow upQ 1
  else ⟨400, .err, 0, false⟩

/-- `generate_questions`: input triage (lines 242-344) then the image and/or
questions upstream calls.  `upI` is the outcome of the vision call (used only
when a syllabus image is processed), `upQ` of the question-generation call. -/
def generate_questions (req : GQReq) (upI upQ : Upstream) : GQResult :=
  match req.ct with
  | .multipart =>
    if truthyFile req.img ∧ truthyStr req.txt then ⟨400, .err, 0, false⟩
    else if truthyFile req.img then imageFlow ((req.img).getD "") upI upQ
    else if truthyStr req.txt then
      if pyStrip ((req.txt).getD "") = "" then ⟨400, .err, 0, false⟩
      else questionsFlow upQ 0
    else ⟨400, .err, 0, false⟩
  | .json =>
    match req.jsonBody with
    | none => ⟨400, .err, 0, false⟩
    | some d =>
      if ¬ pyTruthy d then ⟨400, .err, 0, false⟩
      else
        match d with
        | .obj _ =>
          let stf := pyGet d "syllabus_text"
          if (pyContainsKey d "syllabus_image").getD false then ⟨400, .err, 0, false⟩
          else
            match stf with
            | some v =>
              if pyTruthy v then
                match v with
                | .str t =>
                  if pyStrip t = "" then ⟨400, .err, 0, false⟩
                  else questionsFlow upQ 0
                | _ => ⟨500, .err, 0, false⟩
              else ⟨400, .err, 0, false⟩
            | none => ⟨400, .err, 0, false⟩
        | _ => ⟨500, .err, 0, false⟩
  | .other => ⟨400, .err, 0, false⟩

/-! ### Handler: `evaluate_answer` (lines 483-543) with its helpers -/

/-- `extract_text_from_image` (lines 545-600): every failure — transport,
non-200 status, or any envelope problem — is re-raised as an `Exception`
(`none`); success returns the stripped content. -/
def extract_text_from_image (up : Upstream) : Option String :=
  match callModel up with
  | .error _ => none
  | .ok c => some c

/-- `evaluate_using_sambanova` (lines 602-695): upstream failure or any
extraction failure raises (`none`); success returns the `(evaluation, score)`
pair produced by `extractEvaluation`. -/
def evaluate_using_sambanova (up : Upstream) : Option (Json × Json) :=
  match callModel up with
  | .error _ => none
  | .ok et =>
    match extractEvaluation et with
    | .ok r => some r
    | .error _ => none

inductive EABody where
  | err
  | ok (evaluation score : Json)

structure EAResult where
  status : Nat
  body : EABody
  calls : Nat
  leftQ : Bool
  leftA : Bool

/-- `evaluate_answer`: both files must be present (400, line 488) and pass
the truthiness + `allowed_file` checks (400, lines 492-497); both are saved,
the two text extractions run inside a `try` whose `finally` removes both
files; extraction failure gives 502 (line 522); a failure inside
`evaluate_using_sambanova` gives 500 (line 534). -/
def evaluate_answer (qfile afile : Option String) (upQ upA upE : Upstream) :
    EAResult :=
  match qfile, afile with
  | some q, some a =>
    if ¬ (q ≠ "" ∧ allowed_file q) then ⟨400, .err, 0, false, false⟩
    else if ¬ (a ≠ "" ∧ allowed_file a) then ⟨400, .err, 0, false, false⟩
    else
      match extract_text_from_image upQ with
      | none => ⟨502, .err, 1, false, false⟩
      | some _qt =>
        match extract_text_from_image upA with
        | none => ⟨502, .err, 2, false, false⟩
        | some _at =>
          match evaluate_using_sambanova upE with
          | none => ⟨500, .err, 3, false, false⟩
          | some (e, sc) => ⟨200, .ok e sc, 3, false, false⟩
  | _, _ => ⟨400, .err, 0, false, false⟩

/-! ### Concrete input builders used in the theorems below -/

/-- A well-formed upstream reply whose `choices[0].message.content` is
`content`. -/
def chatReply (content : String) : Upstream :=
  .resp 200 (some (.obj
    [("choices", .arr [.obj [("message", .obj [("content", .str content)])]])]))

/-- A JSON request to `/generate-questions` carrying only `syllabus_text`. -/
def jsonTextReq (t : String) : GQReq :=
  ⟨.json, none, none, some (.obj [("syllabus_text", .str t)])⟩

/-- A multipart request to `/generate-questions` carrying only a
`syllabus_image` file part named `f`. -/
def imgReq (f : String) : GQReq :=
  ⟨.multipart, some f, none, none⟩

/-- A request body for `/generate-article` with the given topic. -/
def topicReq (t : String) : Option Json :=
  some (.obj [("topic", .str t)])

/-- The claim's reading of the accepted extension: the text after the last
dot of the filename (stated independently of `allowed_file`, which models
`rsplit`). -/
def extAfterLastDotSpec (f : String) : String :=
  ⟨(f.data.reverse.takeWhile (fun c => c ≠ '.')).reverse⟩

/-! ## Helper lemmas -/

theorem pyStrip_ne_empty {t : String} (h : pyStrip t ≠ "") : t ≠ "" := by
  intro ht
  exact h (by rw [ht]; rfl)

theorem allowed_file_ne_empty {f : String} (h : allowed_file f = true) :
    f ≠ "" := by
  intro hf
  rw [hf] at h
  exact absurd h (by decide)

theorem handleExtract_calls (c : String) (n : Nat) :
    (handleExtract c n).calls = n := by
  unfold handleExtract
  rcases h : extractQuestions c with e | ⟨s, d⟩
  · rcases e <;> simp [h]
  · simp [h]

theorem handleExtract_left (c : String) (n : Nat) :
    (handleExtract c n).imageFileLeft = false := by
  unfold handleExtract
  rcases h : extractQuestions c with e | ⟨s, d⟩
  · rcases e <;> simp [h]
  · simp [h]

theorem questionsFlow_calls (up : Upstream) (n : Nat) :
    (questionsFlow up n).calls = n + 1 := by
  unfold questionsFlow
  rcases h : callModel up with e | c
  · rcases e with _ | st | ee
    · simp [h]
    · simp [h]
    · rcases ee <;> simp [h]
  · simp [h, handleExtract_calls]

theorem questionsFlow_left (up : Upstream) (n : Nat) :
    (questionsFlow up n).imageFileLeft = false := by
  unfold questionsFlow
  rcases h : callModel up with e | c
  · rcases e with _ | st | ee
    · simp [h]
    · simp [h]
    · rcases ee <;> simp [h]
  · simp [h, handleExtract_left]

/-- Input triage of `generate_questions` on a JSON request with a non-blank
`syllabus_text`: control reaches the questions upstream call. -/
theorem gq_json_triage (t : String) (h : pyStrip t ≠ "") (upI upQ : Upstream) :
    generate_questions (jsonTextReq t) upI upQ = questionsFlow upQ 0 := by
  have ht : t ≠ "" := pyStrip_ne_empty h
  simp [generate_questions, jsonTextReq, pyTruthy, pyGet, pyContainsKey, h, ht]

/-- Input triage of `generate_questions` on a multipart request carrying only
a syllabus image with an accepted filename: control reaches the image flow. -/
theorem gq_img_triage (f : String) (h : allowed_file f = true)
    (upI upQ : Upstream) :
    generate_questions (imgReq f) upI upQ = imageFlow f upI upQ := by
  have hf : f ≠ "" := allowed_file_ne_empty h
  simp [generate_questions, imgReq, truthyFile, truthyStr, hf]

/-- Input triage of `generate_article` on a body with a non-blank topic:
control reaches the upstream call. -/
theorem ga_triage (t : String) (h : pyStrip t ≠ "") (up : Upstream) :
    generate_article (topicReq t) up = articleFlow up := by
  simp [generate_article, topicReq, pyTruthy, pyContainsKey, pyGet, h]

theorem upFails_error {u : Upstream} (h : upFails u = true) :
    ∃ e, callModel u = .error e := by
  unfold upFails at h
  rcases hc : callModel u with e | c
  · exact ⟨e, rfl⟩
  · rw [hc] at h; simp at h

/-! ## Claim theorems -/

/-- C9: Extraction is idempotent and deterministic: for every raw model reply
text, running the question extraction and the evaluation extraction twice on
the same text yields the same result (or the same error) both times.  Both
pipelines are pure functions of the reply text in this embedding, exactly as
in the source, where they use only `re` and `json` on their input. -/
theorem C9_extraction_deterministic (t : String) :
    extractQuestions t = extractQuestions t ∧
    extractEvaluation t = extractEvaluation t :=
  ⟨rfl, rfl⟩

/-- C7: a `/generate-questions` request supplying both a (truthy)
`syllabus_text` form field and a (truthy) `syllabus_image` file part is
answered 400 with no upstream call made. -/
theorem C7_both_inputs_rejected (fimg ftxt : String) (upI upQ : Upstream)
    (h1 : fimg ≠ "") (h2 : ftxt ≠ "") :
    generate_questions ⟨.multipart, some fimg, some ftxt, none⟩ upI upQ =
      ⟨400, .err, 0, false⟩ := by
  simp [generate_questions, truthyFile, truthyStr, h1, h2]

/-- Witness for C7 at a concrete request. -/
theorem C7_both_inputs_rejected_witness :
    generate_questions ⟨.multipart, some "a.png", some "syllabus", none⟩
      .netError .netError = ⟨400, .err, 0, false⟩ :=
  C7_both_inputs_rejected "a.png" "syllabus" .netError .netError
    (by decide) (by decide)

/-- C6 fails on the code: a reply of exactly ten numbered lines and no braces
does not trigger any line-oriented fallback — extraction reports `noJson` and
the handler answers 502 instead of assigning lines 1-5 / 6-10 to the two
lists. -/
theorem C6_counterexample :
    braceMatch "1. A\n2. B\n3. C\n4. D\n5. E\n6. F\n7. G\n8. H\n9. I\n10. J"
      = none ∧
    extractQuestions "1. A\n2. B\n3. C\n4. D\n5. E\n6. F\n7. G\n8. H\n9. I\n10. J"
      = .error .noJson ∧
    (handleExtract "1. A\n2. B\n3. C\n4. D\n5. E\n6. F\n7. G\n8. H\n9. I\n10. J" 1).status
      = 502 :=
  ⟨rfl, rfl, rfl⟩

/-- C6 amended: when strict JSON parsing of the model reply fails (no JSON
object found, or the matched substring does not parse), question extraction
fails with a structured error and the handler answers 502; there is no
line-oriented fallback. -/
theorem C6_amended :
    (∀ t, braceMatch t = none → extractQuestions t = .error .noJson) ∧
    (∀ t sub, braceMatch t = some sub → jsonLoads sub = none →
      extractQuestions t = .error .decodeErr) ∧
    (∀ t n, extractQuestions t = .error .noJson ∨
        extractQuestions t = .error .decodeErr →
      (handleExtract t n).status = 502) := by
  refine ⟨?_, ?_, ?_⟩
  · intro t h
    simp [extractQuestions, h]
  · intro t sub h1 h2
    simp [extractQuestions, h1, h2]
  · intro t n h
    rcases h with h | h <;> simp [handleExtract, h]

/-- Witness for the amended C6 at concrete reply texts. -/
theorem C6_amended_witness :
    extractQuestions "no braces here" = .error .noJson ∧
    extractQuestions "\x7boops\x7d" = .error .decodeErr ∧
    (handleExtract "no braces here" 1).status = 502 :=
  ⟨C6_amended.1 "no braces here" rfl,
   C6_amended.2.1 "\x7boops\x7d" "\x7boops\x7d" rfl rfl,
   C6_amended.2.2 "no braces here" 1 (Or.inl (C6_amended.1 "no braces here" rfl))⟩

/-- C4 fails on the code: the only fallback regex is `"score"\s*:\s*(\d+)`;
a reply whose JSON object lacks a score but which contains the free-text form
`Score: 8/10` is not recovered — extraction raises a missing-score error
instead of returning 8. -/
theorem C4_counterexample :
    containsSub "Score: 8/10" "\x7b\"evaluation\": \"good\"\x7d Score: 8/10" = true ∧
    extractEvaluation "\x7b\"evaluation\": \"good\"\x7d Score: 8/10"
      = .error .missingScore :=
  ⟨rfl, rfl⟩

/-- C4 amended: when the parsed JSON object lacks a score field (or it is
null), a single regex fallback `"score"\s*:\s*(\d+)` is applied to the whole
reply text before the operation gives up with a missing-score error; the
JSON-style form `"score": 8` is accepted by the fallback and yields the
integer, while the free-text form `Score: 8/10` is not matched. -/
theorem C4_amended :
    (∀ et sub j n, braceMatch et = some sub → jsonLoads sub = some j →
        Json.isObj j = true → pyGetNonNull j "score" = none →
        regexScoreSearch et.data = some n →
        extractEvaluation et = .ok (pyGetD j "evaluation" (.str ""), .num (n : Int))) ∧
    (∀ et sub j, braceMatch et = some sub → jsonLoads sub = some j →
        Json.isObj j = true → pyGetNonNull j "score" = none →
        regexScoreSearch et.data = none →
        extractEvaluation et = .error .missingScore) ∧
    (regexScoreSearch ("\"score\": 8").data = some 8 ∧
      regexScoreSearch ("Score: 8/10").data = none) := by
  refine ⟨?_, ?_, rfl, rfl⟩
  · intro et sub j n h1 h2 hobj h3 h4
    cases j <;> simp [Json.isObj] at hobj
    simp [extractEvaluation, h1, h2, h3, h4]
  · intro et sub j h1 h2 hobj h3 h4
    cases j <;> simp [Json.isObj] at hobj
    simp [extractEvaluation, h1, h2, h3, h4]

/-- Witness for the amended C4 at concrete reply texts. -/
theorem C4_amended_witness :
    extractEvaluation "\x7b\"evaluation\": \"ok\"\x7d and \"score\": 7 end"
      = .ok (.str "ok", .num 7) ∧
    extractEvaluation "\x7b\"evaluation\": \"bad\"\x7d"
      = .error .missingScore := by
  constructor
  · have h := C4_amended.1 "\x7b\"evaluation\": \"ok\"\x7d and \"score\": 7 end"
      "\x7b\"evaluation\": \"ok\"\x7d" (.obj [("evaluation", .str "ok")]) 7
      rfl rfl rfl rfl rfl
    exact h
  · exact C4_amended.2.1 "\x7b\"evaluation\": \"bad\"\x7d"
      "\x7b\"evaluation\": \"bad\"\x7d" (.obj [("evaluation", .str "bad")])
      rfl rfl rfl rfl rfl

theorem normalizeQuestions_split (xs : List Json) (d : Json)
    (hd : pyTruthy d = false) (hlen : 10 ≤ xs.length) :
    normalizeQuestions (.arr xs) d = some (.arr (xs.take 5), .arr (xs.drop 5)) := by
  simp [normalizeQuestions, hd, pyLen, hlen, pySliceTo, pySliceFrom]

theorem finishQuestions_split10 (xs : List Json) (d : Json)
    (hd : pyTruthy d = false) (hlen : xs.length = 10) :
    finishQuestions (.arr xs) d = .ok (.arr (xs.take 5), .arr (xs.drop 5)) := by
  have h10 : 10 ≤ xs.length := by omega
  have htake : (xs.take 5).length = 5 := by
    rw [List.length_take]; omega
  have hdrop : (xs.drop 5).length = 5 := by
    rw [List.length_drop]; omega
  simp [finishQuestions, normalizeQuestions_split xs d hd h10, pyLen, htake, hdrop]

/-- C3 fails on the code in the symmetric direction: when the short list
parses empty and the descriptive list has 10 items, no split happens and
extraction fails with the insufficient-content error instead of producing a
5/5 split. -/
theorem C3_counterexample :
    jsonLoads "\x7b\"short_questions\": [], \"descriptive_questions\": [\"d1\",\"d2\",\"d3\",\"d4\",\"d5\",\"d6\",\"d7\",\"d8\",\"d9\",\"d10\"]\x7d"
      = some (.obj [("short_questions", .arr []),
          ("descriptive_questions", .arr [.str "d1", .str "d2", .str "d3",
            .str "d4", .str "d5", .str "d6", .str "d7", .str "d8", .str "d9",
            .str "d10"])]) ∧
    extractQuestions "\x7b\"short_questions\": [], \"descriptive_questions\": [\"d1\",\"d2\",\"d3\",\"d4\",\"d5\",\"d6\",\"d7\",\"d8\",\"d9\",\"d10\"]\x7d"
      = .error .insufficient :=
  ⟨rfl, rfl⟩

/-- C3 amended: normalization splits only in one direction — when the
descriptive list is falsy and the short list has length at least 10 it is
replaced by `short[:5]` / `short[5:]`; with exactly 10 items this is a 5/5
split preserving the original order.  In the symmetric situation (short list
empty) no split happens and validation fails with the insufficient-content
error. -/
theorem C3_amended :
    (∀ (xs : List Json) (d : Json), pyTruthy d = false → 10 ≤ xs.length →
      normalizeQuestions (.arr xs) d = some (.arr (xs.take 5), .arr (xs.drop 5))) ∧
    (∀ (xs : List Json) (d : Json), pyTruthy d = false → xs.length = 10 →
      finishQuestions (.arr xs) d = .ok (.arr (xs.take 5), .arr (xs.drop 5)) ∧
      (xs.take 5).length = 5 ∧ (xs.drop 5).length = 5 ∧
      xs.take 5 ++ xs.drop 5 = xs) ∧
    (∀ d : Json, finishQuestions (.arr []) d = .error .insufficient) := by
  refine ⟨normalizeQuestions_split, ?_, ?_⟩
  · intro xs d hd hlen
    refine ⟨finishQuestions_split10 xs d hd hlen, ?_, ?_, List.take_append_drop 5 xs⟩
    · rw [List.length_take]; omega
    · rw [List.length_drop]; omega
  · intro d
    rcases hd : pyTruthy d with _ | _
    · simp [finishQuestions, normalizeQuestions, hd, pyLen]
    · simp [finishQuestions, normalizeQuestions, hd, pyLen]

/-- Witness for the amended C3 at a concrete ten-question list. -/
theorem C3_amended_witness :
    normalizeQuestions
        (.arr [.str "q1", .str "q2", .str "q3", .str "q4", .str "q5",
          .str "q6", .str "q7", .str "q8", .str "q9", .str "q10"]) (.arr [])
      = some (.arr [.str "q1", .str "q2", .str "q3", .str "q4", .str "q5"],
          .arr [.str "q6", .str "q7", .str "q8", .str "q9", .str "q10"]) ∧
    finishQuestions
        (.arr [.str "q1", .str "q2", .str "q3", .str "q4", .str "q5",
          .str "q6", .str "q7", .str "q8", .str "q9", .str "q10"]) (.arr [])
      = .ok (.arr [.str "q1", .str "q2", .str "q3", .str "q4", .str "q5"],
          .arr [.str "q6", .str "q7", .str "q8", .str "q9", .str "q10"]) ∧
    finishQuestions (.arr []) (.str "anything") = .error .insufficient := by
  refine ⟨?_, ?_, C3_amended.2.2 (.str "anything")⟩
  · exact C3_amended.1 _ (.arr []) rfl (by decide)
  · exact (C3_amended.2.1 _ (.arr []) rfl (by decide)).1

/-- C5 fails on the code only in its claimed equivalence: three short plus
seven descriptive questions are 10 parsable items in total, yet the call
still fails with the insufficient-content error, so "either list shorter
than 5" is not equivalent to "fewer than 10 items in total". -/
theorem C5_counterexample :
    (jsonLoads "\x7b\"short_questions\": [\"a\",\"b\",\"c\"], \"descriptive_questions\": [\"d\",\"e\",\"f\",\"g\",\"h\",\"i\",\"j\"]\x7d").map
        (fun j => (pyLen (pyGetD j "short_questions" (.arr [])),
          pyLen (pyGetD j "descriptive_questions" (.arr []))))
      = some (some 3, some 7) ∧
    extractQuestions "\x7b\"short_questions\": [\"a\",\"b\",\"c\"], \"descriptive_questions\": [\"d\",\"e\",\"f\",\"g\",\"h\",\"i\",\"j\"]\x7d"
      = .error .insufficient :=
  ⟨rfl, rfl⟩

/-- C5 amended: if after normalization either question list has fewer than 5
items — a condition implied by, but not equivalent to, the upstream returning
fewer than 10 parsable items in total — the extraction fails with the
insufficient-content error and the handler answers 502 instead of returning a
truncated result. -/
theorem C5_amended :
    (∀ (s d s' d' : Json) (a b : Nat), normalizeQuestions s d = some (s', d') →
      pyLen s' = some a → pyLen d' = some b → a < 5 ∨ b < 5 →
      finishQuestions s d = .error .insufficient) ∧
    (∀ a b : Nat, a + b < 10 → a < 5 ∨ b < 5) ∧
    (∀ c n, extractQuestions c = .error .insufficient →
      handleExtract c n = ⟨502, .err, n, false⟩) := by
  refine ⟨?_, ?_, ?_⟩
  · intro s d s' d' a b hn ha hb hab
    rcases hab with hab | hab
    · simp [finishQuestions, hn, ha, hab]
    · by_cases ha5 : a < 5
      · simp [finishQuestions, hn, ha, ha5]
      · simp [finishQuestions, hn, ha, ha5, hb, hab]
  · intro a b h
    omega
  · intro c n h
    simp [handleExtract, h]

/-- Witness for the amended C5 at concrete lists. -/
theorem C5_amended_witness :
    finishQuestions (.arr [.str "a", .str "b", .str "c"])
        (.arr [.str "d", .str "e", .str "f", .str "g", .str "h", .str "i", .str "j"])
      = .error .insufficient ∧
    ((3 : Nat) < 5 ∨ (4 : Nat) < 5) ∧
    handleExtract "\x7b\"short_questions\": []\x7d" 1 = ⟨502, .err, 1, false⟩ := by
  refine ⟨?_, ?_, ?_⟩
  · exact C5_amended.1 _ _ _ _ 3 7 rfl rfl rfl (Or.inl (by decide))
  · exact C5_amended.2.1 3 4 (by decide)
  · exact C5_amended.2.2 "\x7b\"short_questions\": []\x7d" 1 rfl

theorem takeWhile_append_all {p : Char → Bool} (l l' : List Char)
    (h : ∀ x ∈ l, p x = true) :
    (l ++ l').takeWhile p = l ++ l'.takeWhile p := by
  induction l with
  | nil => simp
  | cons x l ih =>
    have hx := h x (by simp)
    simp [List.takeWhile_cons, hx, ih (fun y hy => h y (by simp [hy]))]

theorem takeWhile_append_stop {p : Char → Bool} (l l' : List Char)
    (h : ∃ x ∈ l, p x = false) :
    (l ++ l').takeWhile p = l.takeWhile p := by
  induction l with
  | nil => simp at h
  | cons x l ih =>
    rcases h with ⟨y, hy, hpy⟩
    rcases List.mem_cons.mp hy with rfl | hyl
    · simp [List.takeWhile_cons, hpy]
    · cases hpx : p x with
      | true => simp [List.takeWhile_cons, hpx, ih ⟨y, hyl, hpy⟩]
      | false => simp [List.takeWhile_cons, hpx]

theorem afterLastDot_of_not_mem (cs : List Char) (h : '.' ∉ cs) :
    afterLastDot cs = none := by
  induction cs with
  | nil => rfl
  | cons c cs ih =>
    have h1 : ¬ (c = '.') := by rintro rfl; exact h (List.mem_cons_self _ _)
    have h2 : '.' ∉ cs := fun hm => h (List.mem_cons_of_mem _ hm)
    simp [afterLastDot, ih h2, h1]

theorem afterLastDot_of_mem (cs : List Char) (h : '.' ∈ cs) :
    afterLastDot cs
      = some ((cs.reverse.takeWhile (fun c => c ≠ '.')).reverse) := by
  induction cs with
  | nil => simp at h
  | cons c cs ih =>
    by_cases hc : '.' ∈ cs
    · simp only [afterLastDot, ih hc]
      rw [List.reverse_cons,
        takeWhile_append_stop _ _ ⟨'.', List.mem_reverse.mpr hc, by decide⟩]
    · have hc2 : c = '.' := by
        rcases List.mem_cons.mp h with h1 | h1
        · exact h1.symm
        · exact absurd h1 hc
      subst hc2
      have hAD : afterLastDot ('.' :: cs) = some cs := by
        simp [afterLastDot, afterLastDot_of_not_mem cs hc]
      rw [hAD, List.reverse_cons,
        takeWhile_append_all _ _ (by
          intro x hx
          have hx1 : x ≠ '.' := by
            intro hx2
            exact hc (hx2 ▸ List.mem_reverse.mp hx)
          simp [hx1])]
      have h1 : List.takeWhile (fun c => (decide (c ≠ '.'))) ['.'] = [] := rfl
      rw [h1, List.append_nil, List.reverse_reverse]

theorem imageFlow_calls (f : String) (upI upQ : Upstream)
    (h : allowed_file f = true) : 1 ≤ (imageFlow f upI upQ).calls := by
  unfold imageFlow
  rcases hc : callModel upI with e | c
  · rcases e with _ | st | ee
    · simp [h, hc]
    · simp [h, hc]
    · rcases ee <;> simp [h, hc]
  · simp [h, hc, questionsFlow_calls]

/-- C10: a file upload is accepted by the filename check exactly when the
filename contains a dot and the text after the last dot, lowercased, is one
of png/jpg/jpeg/gif/pdf; at both upload-accepting endpoints a filename
failing this check is answered 400 before any upstream call, and one passing
it leads to an upstream call being made. -/
theorem C10_allowed_file :
    (∀ f : String, allowed_file f = true ↔
      ('.' ∈ f.data ∧ pyLower (extAfterLastDotSpec f) ∈ ALLOWED_EXTENSIONS)) ∧
    (∀ q a upQ upA upE, allowed_file q = false →
      evaluate_answer (some q) (some a) upQ upA upE
        = ⟨400, .err, 0, false, false⟩) ∧
    (∀ q a upQ upA upE, q ≠ "" → allowed_file q = true → allowed_file a = false →
      evaluate_answer (some q) (some a) upQ upA upE
        = ⟨400, .err, 0, false, false⟩) ∧
    (∀ f upI upQ, allowed_file f = false →
      generate_questions (imgReq f) upI upQ = ⟨400, .err, 0, false⟩) ∧
    (∀ f upI upQ, allowed_file f = true →
      1 ≤ (generate_questions (imgReq f) upI upQ).calls) ∧
    (∀ q a upQ upA upE, q ≠ "" → allowed_file q = true → a ≠ "" →
      allowed_file a = true →
      1 ≤ (evaluate_answer (some q) (some a) upQ upA upE).calls) := by
  refine ⟨?_, ?_, ?_, ?_, ?_, ?_⟩
  · intro f
    unfold allowed_file
    by_cases h : '.' ∈ f.data
    · rw [afterLastDot_of_mem _ h]
      simp [h, extAfterLastDotSpec]
    · rw [afterLastDot_of_not_mem _ h]
      simp [h]
  · intro q a upQ upA upE h
    simp [evaluate_answer, h]
  · intro q a upQ upA upE hq1 hq2 ha
    simp [evaluate_answer, hq1, hq2, ha]
  · intro f upI upQ h
    by_cases hf : f = ""
    · subst hf
      simp [generate_questions, imgReq, truthyFile, truthyStr]
    · simp [generate_questions, imgReq, truthyFile, truthyStr, hf, imageFlow, h]
  · intro f upI upQ h
    rw [gq_img_triage f h]
    exact imageFlow_calls f upI upQ h
  · intro q a upQ upA upE hq1 hq2 ha1 ha2
    simp [evaluate_answer, hq1, hq2, ha1, ha2]
    rcases he1 : extract_text_from_image upQ with _ | qt
    · simp [he1]
    · rcases he2 : extract_text_from_image upA with _ | at2
      · simp [he1, he2]
      · rcases he3 : evaluate_using_sambanova upE with _ | ⟨e, sc⟩
        · simp [he1, he2, he3]
        · simp [he1, he2, he3]

/-- Witness for C10 at concrete filenames. -/
theorem C10_allowed_file_witness :
    ('.' ∈ "a.PNG".data ∧ pyLower (extAfterLastDotSpec "a.PNG") ∈ ALLOWED_EXTENSIONS) ∧
    evaluate_answer (some "q.txt") (some "a.png") .netError .netError .netError
      = ⟨400, .err, 0, false, false⟩ ∧
    evaluate_answer (some "q.png") (some "a.txt") .netError .netError .netError
      = ⟨400, .err, 0, false, false⟩ ∧
    generate_questions (imgReq "noext") .netError .netError
      = ⟨400, .err, 0, false⟩ ∧
    1 ≤ (generate_questions (imgReq "a.png") .netError .netError).calls ∧
    1 ≤ (evaluate_answer (some "q.png") (some "a.png") .netError .netError .netError).calls := by
  refine ⟨(C10_allowed_file.1 "a.PNG").mp rfl, ?_, ?_, ?_, ?_, ?_⟩
  · exact C10_allowed_file.2.1 "q.txt" "a.png" .netError .netError .netError rfl
  · exact C10_allowed_file.2.2.1 "q.png" "a.txt" .netError .netError .netError
      (by decide) rfl rfl
  · exact C10_allowed_file.2.2.2.1 "noext" .netError .netError rfl
  · exact C10_allowed_file.2.2.2.2.1 "a.png" .netError .netError rfl
  · exact C10_allowed_file.2.2.2.2.2 "q.png" "a.png" .netError .netError .netError
      (by decide) rfl (by decide) rfl

/-- C2 fails on the code: `generate_questions` propagates a non-2xx upstream
status code verbatim (line 392 returns `response_questions.status_code`), so
an upstream 418 produces a 418 — not 502 — even though the questions upstream
call was made and failed. -/
theorem C2_counterexample :
    (generate_questions (jsonTextReq "syllabus") .netError (.resp 418 none)).status = 418 ∧
    (generate_questions (jsonTextReq "syllabus") .netError (.resp 418 none)).calls = 1 :=
  ⟨rfl, rfl⟩

/-- C2 amended: transport errors give 502 in every handler, and
`generate_article` also answers 502 for non-2xx statuses and for envelopes
whose failure raises `KeyError`/`IndexError`/`json.JSONDecodeError`; but
`generate_questions` propagates a non-2xx upstream status verbatim (both the
image and the questions call), answers 500 (not 502) when the questions-call
envelope fails other than by a JSON decode error, and `evaluate_answer`
answers 500 (not 502) for any upstream failure during the evaluation call;
only its two text-extraction calls map failures to 502. -/
theorem C2_amended :
    (∀ t, pyStrip t ≠ "" →
      (generate_article (topicReq t) .netError).status = 502) ∧
    (∀ t st b, pyStrip t ≠ "" → st ≠ 200 →
      (generate_article (topicReq t) (.resp st b)).status = 502) ∧
    (∀ t b e, pyStrip t ≠ "" → envContent b = .error e → e ≠ .wrongType →
      (generate_article (topicReq t) (.resp 200 b)).status = 502) ∧
    (∀ t upI, pyStrip t ≠ "" →
      (generate_questions (jsonTextReq t) upI .netError).status = 502) ∧
    (∀ t upI st b, pyStrip t ≠ "" → st ≠ 200 →
      (generate_questions (jsonTextReq t) upI (.resp st b)).status = st) ∧
    (∀ t upI, pyStrip t ≠ "" →
      (generate_questions (jsonTextReq t) upI (.resp 200 none)).status = 502) ∧
    (∀ t upI b e, pyStrip t ≠ "" → envContent b = .error e → e ≠ .notJson →
      (generate_questions (jsonTextReq t) upI (.resp 200 b)).status = 500) ∧
    (∀ f upQ, allowed_file f = true →
      (generate_questions (imgReq f) .netError upQ).status = 502) ∧
    (∀ f upQ st b, allowed_file f = true → st ≠ 200 →
      (generate_questions (imgReq f) (.resp st b) upQ).status = st) ∧
    (∀ f upQ b e, allowed_file f = true → envContent b = .error e →
      e ≠ .wrongType →
      (generate_questions (imgReq f) (.resp 200 b) upQ).status = 502) ∧
    (∀ upA upE,
      (evaluate_answer (some "q.png") (some "a.png") .netError upA upE).status = 502) ∧
    (∀ upQc upE c, callModel upQc = .ok c →
      (evaluate_answer (some "q.png") (some "a.png") upQc .netError upE).status = 502) ∧
    (∀ upQc upAc upE cq ca, callModel upQc = .ok cq → callModel upAc = .ok ca →
      upFails upE = true →
      (evaluate_answer (some "q.png") (some "a.png") upQc upAc upE).status = 500) := by
  refine ⟨?_, ?_, ?_, ?_, ?_, ?_, ?_, ?_, ?_, ?_, ?_, ?_, ?_⟩
  · intro t ht
    rw [ga_triage t ht]
    rfl
  · intro t st b ht hst
    rw [ga_triage t ht]
    simp [articleFlow, callModel, hst]
  · intro t b e ht he hw
    rw [ga_triage t ht]
    rcases e with _ | _ | _
    · simp [articleFlow, callModel, he]
    · simp [articleFlow, callModel, he]
    · exact absurd rfl hw
  · intro t upI ht
    rw [gq_json_triage t ht]
    rfl
  · intro t upI st b ht hst
    rw [gq_json_triage t ht]
    simp [questionsFlow, callModel, hst]
  · intro t upI ht
    rw [gq_json_triage t ht]
    rfl
  · intro t upI b e ht he hw
    rw [gq_json_triage t ht]
    rcases e with _ | _ | _
    · exact absurd rfl hw
    · simp [questionsFlow, callModel, he]
    · simp [questionsFlow, callModel, he]
  · intro f upQ hf
    rw [gq_img_triage f hf]
    simp [imageFlow, hf, callModel]
  · intro f upQ st b hf hst
    rw [gq_img_triage f hf]
    simp [imageFlow, hf, callModel, hst]
  · intro f upQ b e hf he hw
    rw [gq_img_triage f hf]
    rcases e with _ | _ | _
    · simp [imageFlow, hf, callModel, he]
    · simp [imageFlow, hf, callModel, he]
    · exact absurd rfl hw
  · intro upA upE
    simp [evaluate_answer, extract_text_from_image, callModel,
      show allowed_file "q.png" = true from rfl,
      show allowed_file "a.png" = true from rfl]
  · intro upQc upE c hc
    simp [evaluate_answer, extract_text_from_image, hc,
      show callModel Upstream.netError = Except.error UpErr.unavailable from rfl,
      show allowed_file "q.png" = true from rfl,
      show allowed_file "a.png" = true from rfl]
  · intro upQc upAc upE cq ca hcq hca hf
    obtain ⟨er, her⟩ := upFails_error hf
    simp [evaluate_answer, extract_text_from_image, hcq, hca,
      evaluate_using_sambanova, her,
      show allowed_file "q.png" = true from rfl,
      show allowed_file "a.png" = true from rfl]

/-- Witness for the amended C2 at concrete requests and upstream outcomes. -/
theorem C2_amended_witness :
    (generate_article (topicReq "Quantum") .netError).status = 502 ∧
    (generate_article (topicReq "Quantum") (.resp 500 none)).status = 502 ∧
    (generate_article (topicReq "Quantum") (.resp 200 (some (.obj [])))).status = 502 ∧
    (generate_questions (jsonTextReq "syllabus") .netError .netError).status = 502 ∧
    (generate_questions (jsonTextReq "syllabus") .netError (.resp 503 none)).status = 503 ∧
    (generate_questions (jsonTextReq "syllabus") .netError (.resp 200 none)).status = 502 ∧
    (generate_questions (jsonTextReq "syllabus") .netError
        (.resp 200 (some (.obj [])))).status = 500 ∧
    (generate_questions (imgReq "a.png") .netError .netError).status = 502 ∧
    (generate_questions (imgReq "a.png") (.resp 404 none) .netError).status = 404 ∧
    (generate_questions (imgReq "a.png") (.resp 200 (some (.obj []))) .netError).status = 502 ∧
    (evaluate_answer (some "q.png") (some "a.png") .netError .netError .netError).status = 502 ∧
    (evaluate_answer (some "q.png") (some "a.png") (chatReply "q") .netError .netError).status = 502 ∧
    (evaluate_answer (some "q.png") (some "a.png") (chatReply "q") (chatReply "a")
        (.resp 500 none)).status = 500 := by
  refine ⟨?_, ?_, ?_, ?_, ?_, ?_, ?_, ?_, ?_, ?_, ?_, ?_, ?_⟩
  · exact C2_amended.1 "Quantum" (by decide)
  · exact C2_amended.2.1 "Quantum" 500 none (by decide) (by decide)
  · exact C2_amended.2.2.1 "Quantum" (some (.obj [])) .missingKey (by decide) rfl (by decide)
  · exact C2_amended.2.2.2.1 "syllabus" .netError (by decide)
  · exact C2_amended.2.2.2.2.1 "syllabus" .netError 503 none (by decide) (by decide)
  · exact C2_amended.2.2.2.2.2.1 "syllabus" .netError (by decide)
  · exact C2_amended.2.2.2.2.2.2.1 "syllabus" .netError (some (.obj []))
      .missingKey (by decide) rfl (by decide)
  · exact C2_amended.2.2.2.2.2.2.2.1 "a.png" .netError rfl
  · exact C2_amended.2.2.2.2.2.2.2.2.1 "a.png" .netError 404 none rfl (by decide)
  · exact C2_amended.2.2.2.2.2.2.2.2.2.1 "a.png" .netError (some (.obj []))
      .missingKey rfl rfl (by decide)
  · exact C2_amended.2.2.2.2.2.2.2.2.2.2.1 .netError .netError
  · exact C2_amended.2.2.2.2.2.2.2.2.2.2.2.1 (chatReply "q") .netError "q" rfl
  · exact C2_amended.2.2.2.2.2.2.2.2.2.2.2.2 (chatReply "q") (chatReply "a")
      (.resp 500 none) "q" "a" rfl rfl rfl

theorem finishQuestions_ok_lens (s d s' d' : Json)
    (h : finishQuestions s d = .ok (s', d')) :
    ∃ a b, pyLen s' = some a ∧ 5 ≤ a ∧ pyLen d' = some b ∧ 5 ≤ b := by
  unfold finishQuestions at h
  rcases hn : normalizeQuestions s d with _ | ⟨s0, d0⟩ <;> rw [hn] at h
  · simp at h
  · dsimp at h
    rcases ha : pyLen s0 with _ | a <;> rw [ha] at h
    · simp at h
    · dsimp at h
      by_cases h5 : a < 5
      · simp [h5] at h
      · rw [if_neg h5] at h
        rcases hb : pyLen d0 with _ | b <;> rw [hb] at h
        · simp at h
        · dsimp at h
          by_cases h6 : b < 5
          · simp [h6] at h
          · rw [if_neg h6] at h
            injection h with h1
            rw [Prod.mk.injEq] at h1
            obtain ⟨rfl, rfl⟩ := h1
            exact ⟨a, b, ha, by omega, hb, by omega⟩

theorem extractQuestions_ok_lens (c : String) (s d : Json)
    (h : extractQuestions c = .ok (s, d)) :
    ∃ a b, pyLen s = some a ∧ 5 ≤ a ∧ pyLen d = some b ∧ 5 ≤ b := by
  unfold extractQuestions at h
  rcases hb : braceMatch c with _ | sub <;> rw [hb] at h
  · simp at h
  · dsimp at h
    rcases hj : jsonLoads sub with _ | qj <;> rw [hj] at h
    · simp at h
    · dsimp at h
      cases qj
      case obj fs => exact finishQuestions_ok_lens _ _ _ _ h
      all_goals simp at h

theorem handleExtract_body (c : String) (n : Nat) (r : GQResult) (s d : Json)
    (hr : handleExtract c n = r) (h : r.body = .ok s d) :
    r.status = 200 ∧ extractQuestions c = .ok (s, d) := by
  unfold handleExtract at hr
  rcases hx : extractQuestions c with e | ⟨s0, d0⟩ <;> rw [hx] at hr
  · rcases e <;> (dsimp at hr; subst hr; simp at h)
  · dsimp at hr
    subst hr
    dsimp at h
    injection h with h1 h2
    subst h1
    subst h2
    exact ⟨rfl, rfl⟩

theorem questionsFlow_lens (up : Upstream) (n : Nat) (r : GQResult) (s d : Json)
    (hr : questionsFlow up n = r) (h : r.body = .ok s d) :
    r.status = 200 ∧ ∃ a b, pyLen s = some a ∧ 5 ≤ a ∧ pyLen d = some b ∧ 5 ≤ b := by
  unfold questionsFlow at hr
  rcases hc : callModel up with e | c <;> rw [hc] at hr
  · rcases e with _ | st | ee
    · dsimp at hr; subst hr; simp at h
    · dsimp at hr; subst hr; simp at h
    · rcases ee <;> (dsimp at hr; subst hr; simp at h)
  · dsimp at hr
    have hh := handleExtract_body _ _ _ _ _ hr h
    exact ⟨hh.1, extractQuestions_ok_lens _ _ _ hh.2⟩

theorem imageFlow_lens (f : String) (upI upQ : Upstream) (r : GQResult)
    (s d : Json) (hr : imageFlow f upI upQ = r) (h : r.body = .ok s d) :
    r.status = 200 ∧ ∃ a b, pyLen s = some a ∧ 5 ≤ a ∧ pyLen d = some b ∧ 5 ≤ b := by
  unfold imageFlow at hr
  split at hr
  · rcases hc : callModel upI with e | c <;> rw [hc] at hr
    · rcases e with _ | st | ee
      · dsimp at hr; subst hr; simp at h
      · dsimp at hr; subst hr; simp at h
      · rcases ee <;> (dsimp at hr; subst hr; simp at h)
    · dsimp at hr
      exact questionsFlow_lens _ _ _ _ _ hr h
  · subst hr; simp at h

theorem gq_lens (req : GQReq) (upI upQ : Upstream) (r : GQResult) (s d : Json)
    (hr : generate_questions req upI upQ = r) (h : r.body = .ok s d) :
    r.status = 200 ∧ ∃ a b, pyLen s = some a ∧ 5 ≤ a ∧ pyLen d = some b ∧ 5 ≤ b := by
  obtain ⟨ct, img, txt, jb⟩ := req
  cases ct
  case multipart =>
    unfold generate_questions at hr
    dsimp at hr
    split at hr
    · subst hr; simp at h
    · split at hr
      · exact imageFlow_lens _ _ _ _ _ _ hr h
      · split at hr
        · split at hr
          · subst hr; simp at h
          · exact questionsFlow_lens _ _ _ _ _ hr h
        · subst hr; simp at h
  case json =>
    unfold generate_questions at hr
    dsimp at hr
    rcases jb with _ | dJ
    · dsimp at hr; subst hr; simp at h
    · dsimp at hr
      cases dJ
      case obj fs =>
        dsimp at hr
        split at hr
        · subst hr; simp at h
        · split at hr
          · subst hr; simp at h
          · rcases hg : pyGet (.obj fs) "syllabus_text" with _ | v <;> rw [hg] at hr
            · dsimp at hr; subst hr; simp at h
            · dsimp at hr
              split at hr
              · cases v
                case str t =>
                  dsimp at hr
                  split at hr
                  · subst hr; simp at h
                  · exact questionsFlow_lens _ _ _ _ _ hr h
                all_goals (dsimp at hr; subst hr; simp at h)
              · subst hr; simp at h
      all_goals (dsimp at hr; split at hr <;> (subst hr; simp at h))
  case other =>
    unfold generate_questions at hr
    dsimp at hr
    subst hr
    simp at h

theorem extractEvaluation_ok_score (et : String) (e sc : Json)
    (h : extractEvaluation et = .ok (e, sc)) :
    ∃ sub j, braceMatch et = some sub ∧ jsonLoads sub = some j ∧
      (pyGetNonNull j "score" = some sc ∨
        ∃ n, regexScoreSearch et.data = some n ∧ sc = .num (n : Int)) := by
  unfold extractEvaluation at h
  rcases hb : braceMatch et with _ | sub <;> rw [hb] at h
  · simp at h
  · dsimp at h
    rcases hj : jsonLoads sub with _ | ej <;> rw [hj] at h
    · simp at h
    · dsimp at h
      cases ej
      case obj fs =>
        dsimp at h
        rcases hg : pyGetNonNull (.obj fs) "score" with _ | v <;> rw [hg] at h
        · rcases hrx : regexScoreSearch et.data with _ | n <;> rw [hrx] at h
          · simp at h
          · dsimp at h
            injection h with h1
            rw [Prod.mk.injEq] at h1
            obtain ⟨h2, h3⟩ := h1
            exact ⟨sub, .obj fs, rfl, hj, Or.inr ⟨n, rfl, h3.symm⟩⟩
        · dsimp at h
          injection h with h1
          rw [Prod.mk.injEq] at h1
          obtain ⟨h2, h3⟩ := h1
          exact ⟨sub, .obj fs, rfl, hj, Or.inl (h3 ▸ hg)⟩
      all_goals simp at h

theorem eus_some (upE : Upstream) (e sc : Json)
    (h : evaluate_using_sambanova upE = some (e, sc)) :
    ∃ et, callModel upE = .ok et ∧ extractEvaluation et = .ok (e, sc) := by
  unfold evaluate_using_sambanova at h
  rcases hc : callModel upE with er | et <;> rw [hc] at h
  · simp at h
  · dsimp at h
    rcases hx : extractEvaluation et with er | p <;> rw [hx] at h
    · simp at h
    · dsimp at h
      injection h with h1
      exact ⟨et, rfl, by rw [hx, h1]⟩

theorem ea_body (q a : Option String) (upQ upA upE : Upstream) (r : EAResult)
    (e sc : Json) (hr : evaluate_answer q a upQ upA upE = r)
    (h : r.body = .ok e sc) :
    r.status = 200 ∧ evaluate_using_sambanova upE = some (e, sc) := by
  unfold evaluate_answer at hr
  rcases q with _ | qs
  · dsimp at hr; subst hr; simp at h
  · rcases a with _ | as2
    · dsimp at hr; subst hr; simp at h
    · dsimp at hr
      split at hr
      · subst hr; simp at h
      · split at hr
        · subst hr; simp at h
        · rcases h1 : extract_text_from_image upQ with _ | qt <;> rw [h1] at hr
          · dsimp at hr; subst hr; simp at h
          · dsimp at hr
            rcases h2 : extract_text_from_image upA with _ | at2 <;> rw [h2] at hr
            · dsimp at hr; subst hr; simp at h
            · dsimp at hr
              rcases h3 : evaluate_using_sambanova upE with _ | ⟨e0, sc0⟩ <;>
                rw [h3] at hr
              · dsimp at hr; subst hr; simp at h
              · dsimp at hr
                subst hr
                dsimp at h
                injection h with h4 h5
                subst h4
                subst h5
                exact ⟨rfl, rfl⟩

/-- C1 fails on the code: the handler only checks `len(...) < 5`, so a reply
carrying six short and six descriptive questions is returned with HTTP 200
and lists of length 6 — not "exactly 5". -/
theorem C1_counterexample :
    (generate_questions (jsonTextReq "syllabus") .netError
        (chatReply "\x7b\"short_questions\": [\"s1\",\"s2\",\"s3\",\"s4\",\"s5\",\"s6\"], \"descriptive_questions\": [\"d1\",\"d2\",\"d3\",\"d4\",\"d5\",\"d6\"]\x7d")).status
      = 200 ∧
    (generate_questions (jsonTextReq "syllabus") .netError
        (chatReply "\x7b\"short_questions\": [\"s1\",\"s2\",\"s3\",\"s4\",\"s5\",\"s6\"], \"descriptive_questions\": [\"d1\",\"d2\",\"d3\",\"d4\",\"d5\",\"d6\"]\x7d")).body
      = .ok (.arr [.str "s1", .str "s2", .str "s3", .str "s4", .str "s5", .str "s6"])
          (.arr [.str "d1", .str "d2", .str "d3", .str "d4", .str "d5", .str "d6"]) ∧
    pyLen (.arr [.str "s1", .str "s2", .str "s3", .str "s4", .str "s5", .str "s6"])
      = some 6 :=
  ⟨rfl, rfl, rfl⟩

/-- C1 amended: a 200 body from `/generate-questions` carries two values with
Python length at least 5 each (possibly more than 5, and not type-checked
beyond having a length); a 200 body from `/evaluate-answer` carries a score
taken verbatim from the reply's JSON `score` field or produced by the integer
regex fallback, with no type or range validation. -/
theorem C1_amended :
    (∀ req upI upQ r s d, generate_questions req upI upQ = r →
      r.body = .ok s d →
      r.status = 200 ∧ ∃ a b, pyLen s = some a ∧ 5 ≤ a ∧ pyLen d = some b ∧ 5 ≤ b) ∧
    (∀ q a upQ upA upE r e sc, evaluate_answer q a upQ upA upE = r →
      r.body = .ok e sc →
      r.status = 200 ∧ ∃ et sub j, callModel upE = .ok et ∧
        braceMatch et = some sub ∧ jsonLoads sub = some j ∧
        (pyGetNonNull j "score" = some sc ∨
          ∃ n, regexScoreSearch et.data = some n ∧ sc = .num (n : Int))) := by
  constructor
  · intro req upI upQ r s d hr h
    exact gq_lens req upI upQ r s d hr h
  · intro q a upQ upA upE r e sc hr h
    obtain ⟨h200, hev⟩ := ea_body q a upQ upA upE r e sc hr h
    obtain ⟨et, hcm, hex⟩ := eus_some upE e sc hev
    obtain ⟨sub, j, hb, hj, hsc⟩ := extractEvaluation_ok_score et e sc hex
    exact ⟨h200, et, sub, j, hcm, hb, hj, hsc⟩

/-- Witness for the amended C1 at concrete 200-producing requests. -/
theorem C1_amended_witness :
    ((generate_questions (jsonTextReq "syllabus") .netError
        (chatReply "\x7b\"short_questions\": [\"s1\",\"s2\",\"s3\",\"s4\",\"s5\",\"s6\"], \"descriptive_questions\": [\"d1\",\"d2\",\"d3\",\"d4\",\"d5\",\"d6\"]\x7d")).status
      = 200 ∧
      ∃ a b, pyLen (.arr [.str "s1", .str "s2", .str "s3", .str "s4", .str "s5", .str "s6"]) = some a ∧ 5 ≤ a ∧
        pyLen (.arr [.str "d1", .str "d2", .str "d3", .str "d4", .str "d5", .str "d6"]) = some b ∧ 5 ≤ b) ∧
    ((evaluate_answer (some "q.png") (some "a.png") (chatReply "question")
        (chatReply "answer")
        (chatReply "\x7b\"evaluation\": \"good\", \"score\": 8\x7d")).status = 200 ∧
      ∃ et sub j, callModel (chatReply "\x7b\"evaluation\": \"good\", \"score\": 8\x7d") = .ok et ∧
        braceMatch et = some sub ∧ jsonLoads sub = some j ∧
        (pyGetNonNull j "score" = some (.num 8) ∨
          ∃ n, regexScoreSearch et.data = some n ∧ (Json.num 8) = .num (n : Int))) := by
  constructor
  · exact C1_amended.1 (jsonTextReq "syllabus") .netError
      (chatReply "\x7b\"short_questions\": [\"s1\",\"s2\",\"s3\",\"s4\",\"s5\",\"s6\"], \"descriptive_questions\": [\"d1\",\"d2\",\"d3\",\"d4\",\"d5\",\"d6\"]\x7d")
      _ _ _ rfl rfl
  · exact C1_amended.2 (some "q.png") (some "a.png") (chatReply "question")
      (chatReply "answer")
      (chatReply "\x7b\"evaluation\": \"good\", \"score\": 8\x7d") _ _ _ rfl rfl

theorem imageFlow_left_iff (f : String) (upI upQ : Upstream) :
    (imageFlow f upI upQ).imageFileLeft = true ↔
      (allowed_file f = true ∧ upFails upI = true) := by
  unfold imageFlow
  by_cases hA : allowed_file f
  · rcases hc : callModel upI with e | c
    · rcases e with _ | st | ee
      · simp [hA, hc, upFails]
      · simp [hA, hc, upFails]
      · rcases ee <;> simp [hA, hc, upFails]
    · simp [hA, hc, upFails, questionsFlow_left]
  · simp [hA]

theorem gq_left_iff (ct : CT) (img txt : Option String) (jb : Option Json)
    (upI upQ : Upstream) (r : GQResult)
    (hr : generate_questions ⟨ct, img, txt, jb⟩ upI upQ = r) :
    r.imageFileLeft = true ↔
      (ct = CT.multipart ∧ truthyFile img = true ∧ truthyStr txt = false ∧
        allowed_file (img.getD "") = true ∧ upFails upI = true) := by
  cases ct
  case multipart =>
    unfold generate_questions at hr
    dsimp at hr
    split at hr
    case isTrue hcond =>
      subst hr
      simp [hcond.2]
    case isFalse hcond =>
      split at hr
      case isTrue h2 =>
        have h3 : truthyStr txt = false := by
          cases ht : truthyStr txt with
          | false => rfl
          | true => exact absurd ⟨h2, ht⟩ hcond
        have hif := imageFlow_left_iff (img.getD "") upI upQ
        rw [hr] at hif
        rw [hif]
        simp [h2, h3]
      case isFalse h2 =>
        split at hr
        case isTrue h4 =>
          split at hr
          · subst hr
            simp [h2]
          · have hqf := questionsFlow_left upQ 0
            rw [hr] at hqf
            simp [hqf, h2]
        case isFalse h4 =>
          subst hr
          simp [h2]
  case json =>
    unfold generate_questions at hr
    dsimp at hr
    rcases jb with _ | dJ
    · dsimp at hr; subst hr; simp
    · dsimp at hr
      cases dJ
      case obj fs =>
        dsimp at hr
        split at hr
        · subst hr; simp
        · split at hr
          · subst hr; simp
          · rcases hg : pyGet (.obj fs) "syllabus_text" with _ | v <;> rw [hg] at hr
            · dsimp at hr; subst hr; simp
            · dsimp at hr
              split at hr
              · cases v
                case str t =>
                  dsimp at hr
                  split at hr
                  · subst hr; simp
                  · have hqf := questionsFlow_left upQ 0
                    rw [hr] at hqf
                    simp [hqf]
                all_goals (dsimp at hr; subst hr; simp)
              · subst hr; simp
      all_goals (dsimp at hr; split at hr <;> (subst hr; simp))
  case other =>
    unfold generate_questions at hr
    dsimp at hr
    subst hr
    simp

theorem ea_left (q a : Option String) (upQ upA upE : Upstream) :
    (evaluate_answer q a upQ upA upE).leftQ = false ∧
      (evaluate_answer q a upQ upA upE).leftA = false := by
  rcases q with _ | qs <;> rcases a with _ | as2 <;> unfold evaluate_answer <;>
    dsimp <;> constructor <;> (repeat' split) <;> simp

/-- C8 fails on the code: in `generate_questions` the uploaded syllabus image
is removed only on the success path of image processing — when the vision
upstream call fails (here: status 500) the handler returns with the file
still on disk. -/
theorem C8_counterexample :
    (generate_questions (imgReq "a.png") (.resp 500 none) .netError).imageFileLeft
      = true ∧
    (generate_questions (imgReq "a.png") (.resp 500 none) .netError).status = 500 :=
  ⟨rfl, rfl⟩

/-- C8 amended: `evaluate_answer` removes both saved files on every modelled
path (its text-extraction `try` has a `finally` cleanup), but in
`generate_questions` the saved syllabus image persists exactly when the image
branch runs with an accepted filename and the vision upstream call fails
(transport error, non-200 status, or malformed envelope); on the successful
image path and all non-image paths no file is left behind. -/
theorem C8_amended :
    (∀ q a upQ upA upE, (evaluate_answer q a upQ upA upE).leftQ = false ∧
      (evaluate_answer q a upQ upA upE).leftA = false) ∧
    (∀ ct img txt jb upI upQ r,
      generate_questions ⟨ct, img, txt, jb⟩ upI upQ = r →
      (r.imageFileLeft = true ↔
        (ct = CT.multipart ∧ truthyFile img = true ∧ truthyStr txt = false ∧
          allowed_file (img.getD "") = true ∧ upFails upI = true))) :=
  ⟨ea_left, gq_left_iff⟩

/-- Witness for the amended C8 at concrete requests. -/
theorem C8_amended_witness :
    ((evaluate_answer (some "q.png") (some "a.png") .netError .netError .netError).leftQ
        = false ∧
      (evaluate_answer (some "q.png") (some "a.png") .netError .netError .netError).leftA
        = false) ∧
    ((generate_questions ⟨.multipart, some "a.png", none, none⟩ (.resp 500 none)
          .netError).imageFileLeft = true ↔
      (CT.multipart = CT.multipart ∧ truthyFile (some "a.png") = true ∧
        truthyStr (none : Option String) = false ∧
        allowed_file ((some "a.png").getD "") = true ∧
        upFails (.resp 500 none) = true)) :=
  ⟨C8_amended.1 (some "q.png") (some "a.png") .netError .netError .netError,
    C8_amended.2 .multipart (some "a.png") none none (.resp 500 none) .netError
      _ rfl⟩

end App
